import Mathlib

/-!
Verification of the fact-checking backend in `src/backend/app.py`.

The file shallowly embeds the core logic of the backend:

* `retrieve_relevant_facts` (lines 66-72): TF-IDF/cosine-similarity retrieval.
  The fitted `TfidfVectorizer` is modelled by its transform function
  `CorpusIndex.embed : String → List ℝ` (one real vector per text); the
  term-document matrix `X` is, as in `fit_transform`, the list of embeddings
  of the corpus rows.  numpy's ascending `argsort` (default kind quicksort,
  which is NOT stable) is specified by `isAscArgsort` — an ascending index
  permutation with implementation-defined tie order — and the general
  retrieval theorems hold for every such permutation; `argsortAsc`, the
  stable insertion sort numpy actually runs below its 16-element introsort
  cutoff, is the executable instance used on the tiny concrete inputs.
* `get_claim_category` (lines 74-92), `log_trend_data` (lines 94-110) and
  `get_fact_check_from_gemini` (lines 112-192).  The external Gemini calls,
  and the `json.loads` of their raw text, are inputs of the model (`Env`);
  Python exceptions are modelled with `Except String`, Python floats with
  exact rationals, JSON values with the inductive `JValue`, and the trend
  log file with `TrendFileState` (absent / unparsable / parsed JSON value).
-/

namespace FactChecker

/-- JSON values as produced by `json.loads` / consumed by `json.dump`.
Python floats are modelled as exact rationals (`jfloat`), Python ints as
`jint` (so `isinstance(score, float)` distinguishes the two constructors);
dicts are ordered association lists with unique keys. -/
inductive JValue : Type
  | jnull
  | jbool (b : Bool)
  | jint (n : ℤ)
  | jfloat (q : ℚ)
  | jstr (s : String)
  | jarr (items : List JValue)
  | jobj (fields : List (String × JValue))

/-- Python truthiness (`if verdict:`): `None`, `False`, `0`, `0.0`, `""`,
`[]` and `\x7b\x7d` are falsy, everything else truthy. -/
def pyTruthy : JValue → Bool
  | .jnull => false
  | .jbool b => b
  | .jint n => n != 0
  | .jfloat q => q != 0
  | .jstr s => s != ""
  | .jarr items => !items.isEmpty
  | .jobj fields => !fields.isEmpty

/-- Python string slice `s[:n]` (by characters, as Python slices by code
points). -/
def strTake (s : String) (n : ℕ) : String :=
  String.mk (s.data.take n)

/-- ASCII whitespace as stripped by Python `str.strip()` (space, tab,
newline, carriage return, vertical tab, form feed). -/
def pySpace (c : Char) : Bool :=
  c == ' ' || c == '\t' || c == '\n' || c == '\r' || c == Char.ofNat 11 || c == Char.ofNat 12

/-- Python `str.strip()`: drop leading and trailing whitespace. -/
def pyStrip (s : String) : String :=
  String.mk (((s.data.dropWhile pySpace).reverse.dropWhile pySpace).reverse)

/-- Python substring test `pat in s` for strings. -/
def strContains (s pat : String) : Bool :=
  (List.range (s.data.length + 1)).any (fun i => pat.data.isPrefixOf (s.data.drop i))

/-- The error dictionaries returned by the orchestrator:
`\x7b"error": msg\x7d`. -/
def errDict (msg : String) : JValue :=
  .jobj [("error", .jstr msg)]

/-- Python `k in v` for a string `k`: key membership for dicts, element
equality for lists (a string compares equal only to an equal string),
substring test for strings, `TypeError` otherwise. -/
def pyContains (v : JValue) (k : String) : Except String Bool :=
  match v with
  | .jobj fields => .ok (fields.any (fun p => p.1 == k))
  | .jarr items => .ok (items.any (fun x => match x with | .jstr s => s == k | _ => false))
  | .jstr s => .ok (strContains s k)
  | _ => .error "argument of type is not iterable"

/-- Python `v[k]` for a string `k`: dict lookup (`KeyError` when absent),
`TypeError` on lists, strings and non-subscriptable values. -/
def pyGetItem (v : JValue) (k : String) : Except String JValue :=
  match v with
  | .jobj fields =>
    match fields.find? (fun p => p.1 == k) with
    | some p => .ok p.2
    | none => .error ("KeyError: " ++ k)
  | .jarr _ => .error "list indices must be integers or slices, not str"
  | .jstr _ => .error "string indices must be integers"
  | _ => .error "object is not subscriptable"

/-- Replace the value of key `k` in an association list (dict assignment);
appends the key when absent, as Python dicts do. -/
def setField : List (String × JValue) → String → JValue → List (String × JValue)
  | [], k, x => [(k, x)]
  | p :: rest, k, x => if p.1 == k then (k, x) :: rest else p :: setField rest k x

/-- Python `v[k] = x`: only dicts support string-keyed item assignment here. -/
def pySetItem (v : JValue) (k : String) (x : JValue) : Except String JValue :=
  match v with
  | .jobj fields => .ok (.jobj (setField fields k x))
  | _ => .error "object does not support item assignment"

/-- `isinstance(score, float) and 0.0 <= score <= 1.0` (line 178).  Python
bools and ints are not floats. -/
def is_unit_float : JValue → Bool
  | .jfloat q => decide (0 ≤ q ∧ q ≤ 1)
  | _ => false

/-- Python `int()` on a number: truncation toward zero. -/
def ratTrunc (q : ℚ) : ℤ :=
  if 0 ≤ q then ⌊q⌋ else ⌈q⌉

/-- Lines 178-179 at the level of the score value: a float in `[0, 1]`
becomes the int `int(score * 100)`; every other value is left unchanged. -/
def normalize_score_value : JValue → JValue
  | .jfloat q => if 0 ≤ q ∧ q ≤ 1 then .jint (ratTrunc (q * 100)) else .jfloat q
  | v => v

/-- Line 176: `"claim_analysis" in result and "score" in result["claim_analysis"]`,
with Python short-circuit evaluation (an exception raised by either part
propagates). -/
def score_condition (result : JValue) : Except String Bool :=
  match pyContains result "claim_analysis" with
  | .error e => .error e
  | .ok false => .ok false
  | .ok true =>
    match pyGetItem result "claim_analysis" with
    | .error e => .error e
    | .ok ca => pyContains ca "score"

/-- Lines 176-179: normalize `result["claim_analysis"]["score"]` in place
when the condition holds and the score is a float in `[0, 1]`. -/
def normalizeScoreStep (result : JValue) : Except String JValue :=
  match score_condition result with
  | .error e => .error e
  | .ok false => .ok result
  | .ok true =>
    match pyGetItem result "claim_analysis" with
    | .error e => .error e
    | .ok ca =>
      match pyGetItem ca "score" with
      | .error e => .error e
      | .ok score =>
        if is_unit_float score then
          match pySetItem ca "score" (normalize_score_value score) with
          | .error e => .error e
          | .ok ca2 => pySetItem result "claim_analysis" ca2
        else .ok result

/-- Line 181: `"claim_analysis" in result and "verdict" in result["claim_analysis"]`. -/
def verdict_condition (result : JValue) : Except String Bool :=
  match pyContains result "claim_analysis" with
  | .error e => .error e
  | .ok false => .ok false
  | .ok true =>
    match pyGetItem result "claim_analysis" with
    | .error e => .error e
    | .ok ca => pyContains ca "verdict"

/-- Lines 181-182: the verdict value when the condition holds, `none` when
the keys are missing. -/
def getVerdict (result : JValue) : Except String (Option JValue) :=
  match verdict_condition result with
  | .error e => .error e
  | .ok false => .ok none
  | .ok true =>
    match pyGetItem result "claim_analysis" with
    | .error e => .error e
    | .ok ca =>
      match pyGetItem ca "verdict" with
      | .error e => .error e
      | .ok v => .ok (some v)

/-- The state of `trends_log.json`: missing file (`open` raises `IOError`),
present but not valid JSON (`json.load` raises `JSONDecodeError` — this
covers the empty file), or present with a parsed JSON value.  The
read-modify-write cycle holds the module lock, so appends are serialized
and modelled as a sequential state transformer.  `json.dump` after
`f.seek(0)` without truncation is modelled as a full replace: every write
of this function strictly extends the previous self-produced
serialization, so no stale bytes survive. -/
inductive TrendFileState : Type
  | absent
  | invalid
  | stored (j : JValue)

/-- The `new_entry` dict of lines 96-101 (the timestamp is an input: the
model does not keep a clock).  The verdict is whatever JSON value the
response carried. -/
def trendEntryJ (ts : String) (verdict : JValue) (category source : String) : JValue :=
  .jobj [("timestamp", .jstr ts), ("verdict", verdict), ("category", .jstr category),
         ("source", .jstr source)]

/-- `log_trend_data` (lines 94-110): read the current JSON value and append.
`IOError` (absent file) and `JSONDecodeError` (unparsable file) fall back
to writing a fresh one-entry array; a parsed non-list value makes
`data.append` raise an uncaught `AttributeError`, leaving the file
unchanged. -/
def log_trend_data (ts : String) (verdict : JValue) (category source : String) :
    TrendFileState → Except String TrendFileState
  | .stored (.jarr l) => .ok (.stored (.jarr (l ++ [trendEntryJ ts verdict category source])))
  | .stored _ => .error "object has no attribute append"
  | .absent => .ok (.stored (.jarr [trendEntryJ ts verdict category source]))
  | .invalid => .ok (.stored (.jarr [trendEntryJ ts verdict category source]))

/-- One requested append: the data of one `log_trend_data` call. -/
structure TrendItem : Type where
  ts : String
  verdict : JValue
  category : String
  source : String

/-- The JSON entry an item produces. -/
def trendItemJ (it : TrendItem) : JValue :=
  trendEntryJ it.ts it.verdict it.category it.source

/-- A sequence of serialized `log_trend_data` calls (the module lock
serializes concurrent callers). -/
def appendAll (items : List TrendItem) (st : TrendFileState) : Except String TrendFileState :=
  match items with
  | [] => .ok st
  | it :: rest =>
    match log_trend_data it.ts it.verdict it.category it.source st with
    | .error e => .error e
    | .ok st2 => appendAll rest st2

/-- Line 89: the six category labels accepted from the classifier. -/
def validCategories : List String :=
  ["Health", "Financial Scam", "Political", "Social", "Technology", "Other"]

/-- The ambient state and external collaborators of one request:
`api_key` (line 40-47), the outcome of the fact-check model call
(`response.text`, or the raised exception message), the outcome of the
classifier model call, the behaviour of `json.loads` on raw text, and the
timestamp `datetime.datetime.now().isoformat()` at logging time. -/
structure Env : Type where
  api_key : Bool
  modelResponse : Except String String
  classifierResponse : Except String String
  jsonLoads : String → Except String JValue
  timestamp : String

/-- `get_claim_category` (lines 74-92).  Returns the category together with
a flag telling whether the external model was actually called (network
I/O happened).  A missing key or blank claim short-circuits to
"Uncategorized" without calling; any exception from the call degrades to
"Uncategorized"; a response that is not exactly one of the six labels is
coerced to "Other". -/
def get_claim_category (env : Env) (claim : String) : String × Bool :=
  if env.api_key = false ∨ pyStrip claim = "" then ("Uncategorized", false)
  else
    match env.classifierResponse with
    | .error _ => ("Uncategorized", true)
    | .ok raw =>
      let category := pyStrip raw
      (if category ∈ validCategories then category else "Other", true)

/-- One row of the merged dataset `df` (lines 50-57): harmonized columns
`text`, `label`, `source`. -/
structure CorpusRow : Type where
  text : String
  label : String
  source : String
deriving DecidableEq

/-- The loaded corpus: the rows of `df`, together with the fitted
vectorizer modelled by its transform `embed` (the TF-IDF vector a text is
mapped to; out-of-vocabulary queries map to the zero vector).  The matrix
`X = vectorizer.fit_transform(df["text"])` is recovered as the embeddings
of the row texts.  `df`, `vectorizer` and `X` are set together (lines
49-62), so a single `Option CorpusIndex` models the degraded state. -/
structure CorpusIndex : Type where
  rows : List CorpusRow
  embed : String → List ℝ

/-- Dot product of two vectors (missing coordinates contribute zero). -/
def dotp (u v : List ℝ) : ℝ :=
  (List.zipWith (fun a b => a * b) u v).sum

/-- Euclidean norm. -/
noncomputable def l2norm (v : List ℝ) : ℝ :=
  Real.sqrt (dotp v v)

/-- `sklearn.metrics.pairwise.cosine_similarity` of two vectors.  With
Lean's `x / 0 = 0` convention this also matches sklearn on zero vectors
(sklearn substitutes norm 1 for a zero norm; the dot product is zero in
that case anyway, so both give similarity 0). -/
noncomputable def cosine_similarity (u v : List ℝ) : ℝ :=
  dotp u v / (l2norm u * l2norm v)

/-- Line 70: `cosine_similarity(query_vec, X).flatten()` — one similarity
per corpus row, in row order. -/
noncomputable def similarities (ix : CorpusIndex) (query : String) : List ℝ :=
  ix.rows.map (fun r => cosine_similarity (ix.embed query) (ix.embed r.text))

/-- Stable ascending insertion of index `i` into an index list sorted by
`val`: `i` goes after every element of no greater value, so equal values
keep their original (index) order. -/
noncomputable def insertAsc (val : ℕ → ℝ) (i : ℕ) : List ℕ → List ℕ
  | [] => [i]
  | j :: l => if val i < val j then i :: j :: l else j :: insertAsc val i l

/-- What numpy guarantees of `similarities.argsort()` (line 71) on every
input: some permutation of the indices `0 .. n-1` listed by ascending
value.  The default sort kind (quicksort/introsort) is NOT stable, so the
relative order of equal values is implementation-defined: no theorem about
the program may rely on a particular tie order, and the general retrieval
theorems are proved for every permutation satisfying this predicate. -/
def isAscArgsort (s : List ℝ) (p : List ℕ) : Prop :=
  p.Perm (List.range s.length) ∧ p.Pairwise (fun i j => s.getD i 0 ≤ s.getD j 0)

/-- `similarities.argsort()` (line 71) as numpy computes it on SMALL
inputs: below introsort's 16-element cutoff numpy runs a plain insertion
sort, which is stable, and this definition mirrors exactly that.  On
larger arrays numpy's quicksort partitioning can scramble equal values, so
this instance is relied on only for inputs of length at most two (the
concrete counterexamples and witnesses), where it coincides with numpy. -/
noncomputable def argsortAsc (s : List ℝ) : List ℕ :=
  (List.range s.length).foldl (fun acc i => insertAsc (fun k => s.getD k 0) i acc) []

/-- Line 71: `similarities.argsort()[-top_k:][::-1]` applied to a given
argsort result `p` of an `n`-element similarity array.  Python's `a[-k:]`
takes the last `min(k, n)` elements when `k ≥ 1`, but the whole array when
`k = 0` (since `-0 == 0`). -/
def top_indices_of (p : List ℕ) (n top_k : ℕ) : List ℕ :=
  if top_k = 0 then p.reverse
  else (p.drop (n - top_k)).reverse

/-- Line 71 with the small-array argsort instance. -/
noncomputable def top_indices (s : List ℝ) (top_k : ℕ) : List ℕ :=
  top_indices_of (argsortAsc s) s.length top_k

/-- The placeholder a (provably in-range) `df.iloc` index defaults to. -/
def defaultRow : CorpusRow :=
  ⟨"", "", ""⟩

/-- `retrieve_relevant_facts` (lines 66-72): empty when the datasets were
not loaded, otherwise the rows at `top_indices`, in that order. -/
noncomputable def retrieve_relevant_facts (idx : Option CorpusIndex) (query : String)
    (top_k : ℕ) : List CorpusRow :=
  match idx with
  | none => []
  | some ix => (top_indices (similarities ix query) top_k).map (fun i => ix.rows.getD i defaultRow)

/-- Lines 71-72 (`df.iloc[top_indices]`) for an arbitrary argsort result
`p`: the rows selected and ordered by `top_indices_of p`.  On a loaded
corpus, `retrieve_relevant_facts` is definitionally `retrieve_of` at the
small-array instance `argsortAsc`. -/
noncomputable def retrieve_of (p : List ℕ) (ix : CorpusIndex) (query : String)
    (top_k : ℕ) : List CorpusRow :=
  (top_indices_of p (similarities ix query).length top_k).map (fun i => ix.rows.getD i defaultRow)

/-- Lines 117-119: the evidence block rendered into the prompt. -/
def facts_text_of (facts : List CorpusRow) : String :=
  if facts.isEmpty then "No relevant facts found in the local dataset."
  else String.intercalate "\n" (facts.map (fun r => "- " ++ r.text ++ " (Label: " ++ r.label ++ ")"))

/-- The observable outcome of one `get_fact_check_from_gemini` call: the
returned dict, the trend-log file afterwards, and whether the fact-check
model call and the classifier model call actually happened (network
I/O). -/
structure FactCheckOut : Type where
  result : JValue
  trend : TrendFileState
  modelCalled : Bool
  classifierCalled : Bool

/-- `get_fact_check_from_gemini` (lines 112-192).  The prompt of lines
121-165 is built from `claim` and the rendered facts and passed to the
external model; since the model's answer is an input (`env.modelResponse`),
the prompt text itself is not tracked by the model.  `except
json.JSONDecodeError` catches exactly the `json.loads` failure (line
189-190, with the 500-character excerpt); `except Exception` (lines
191-192) catches everything else: the call itself, the `TypeError` and
`KeyError` family raised by the normalization and verdict lookups on
non-dict JSON, and the `AttributeError` from `log_trend_data` on a
non-array log file. -/
noncomputable def get_fact_check_from_gemini (env : Env) (idx : Option CorpusIndex)
    (st : TrendFileState) (claim source_type : String) : FactCheckOut :=
  if env.api_key = false then
    ⟨errDict "API Key is not configured on the server.", st, false, false⟩
  else
    let facts := retrieve_relevant_facts idx claim 3
    let _factsText := facts_text_of facts
    match env.modelResponse with
    | .error e => ⟨errDict ("An API or other error occurred: " ++ e), st, true, false⟩
    | .ok text =>
      match env.jsonLoads text with
      | .error e =>
        ⟨errDict ("Failed to parse JSON response from Gemini API: " ++ e ++ ". Response: " ++
          strTake text 500), st, true, false⟩
      | .ok result0 =>
        match normalizeScoreStep result0 with
        | .error e => ⟨errDict ("An API or other error occurred: " ++ e), st, true, false⟩
        | .ok result1 =>
          match getVerdict result1 with
          | .error e => ⟨errDict ("An API or other error occurred: " ++ e), st, true, false⟩
          | .ok none => ⟨result1, st, true, false⟩
          | .ok (some v) =>
            if pyTruthy v then
              let cc := get_claim_category env claim
              match log_trend_data env.timestamp v cc.1 source_type st with
              | .error e =>
                ⟨errDict ("An API or other error occurred: " ++ e), st, true, cc.2⟩
              | .ok st2 => ⟨result1, st2, true, cc.2⟩
            else ⟨result1, st, true, false⟩

/-- Strict lexicographic order on indices by `(value, index)`: the order in
which a stable ascending argsort lists distinct indices. -/
def lexLT (val : ℕ → ℝ) (i j : ℕ) : Prop :=
  val i < val j ∨ (val i = val j ∧ i < j)

/-- Modelled from the spec: stable descending insertion — `i` goes before
the first element of strictly smaller value, so among equal values the
original (index) order is kept. -/
noncomputable def insertDesc (val : ℕ → ℝ) (i : ℕ) : List ℕ → List ℕ
  | [] => [i]
  | j :: l => if val j < val i then i :: j :: l else j :: insertDesc val i l

/-- Modelled from the spec: the indices ranked by descending similarity
with ties broken by original corpus order (stable sort). -/
noncomputable def spec_ranking (s : List ℝ) : List ℕ :=
  (List.range s.length).foldl (fun acc i => insertDesc (fun k => s.getD k 0) i acc) []

/-- Modelled from the spec (section 4.2): select the `topK` indices with
highest similarity, ties broken by original corpus order, and return those
rows in descending-similarity order. -/
noncomputable def spec_select (ix : CorpusIndex) (query : String) (top_k : ℕ) : List CorpusRow :=
  ((spec_ranking (similarities ix query)).take top_k).map (fun i => ix.rows.getD i defaultRow)

/-- Claim C1 as stated: retrieval returns the stable descending-similarity
selection (at most `topK` rows, non-increasing similarity, ties by
original corpus order), and an empty sequence when the corpus is not
loaded. -/
def claimC1 : Prop :=
  (∀ (ix : CorpusIndex) (q : String) (k : ℕ), 1 ≤ k →
    retrieve_relevant_facts (some ix) q k = spec_select ix q k)
  ∧ (∀ (q : String) (k : ℕ), retrieve_relevant_facts none q k = [])

/-- Claim C5 as stated (weakened to bare existence, so that refuting it
refutes every reading): after every fact-check whose result is not an
error dict, at least one entry was appended to the trend log. -/
def claimC5 : Prop :=
  ∀ (env : Env) (idx : Option CorpusIndex) (l : List JValue) (claim source_type : String),
    (∀ msg, (get_fact_check_from_gemini env idx (.stored (.jarr l)) claim source_type).result ≠
      errDict msg) →
    ∃ e, (get_fact_check_from_gemini env idx (.stored (.jarr l)) claim source_type).trend =
      .stored (.jarr (l ++ [e]))

/-- The count clause of claim C10 as stated: with a loaded corpus of `n`
rows, retrieve returns exactly `min topK n` rows, for every query and
every `topK` (the claim puts no restriction on `topK`).  Refuting this
conjunct refutes the claim. -/
def claimC10 : Prop :=
  ∀ (ix : CorpusIndex) (q : String) (k : ℕ),
    (retrieve_relevant_facts (some ix) q k).length = min k ix.rows.length

/-- Helper: appending to a file already holding a JSON array extends the
array in order. -/
theorem appendAll_stored (items : List TrendItem) (l : List JValue) :
    appendAll items (.stored (.jarr l)) = .ok (.stored (.jarr (l ++ items.map trendItemJ))) := by
  induction items generalizing l with
  | nil => simp [appendAll]
  | cons it rest ih =>
    simp only [appendAll, log_trend_data, List.map_cons]
    rw [ih]
    simp [trendItemJ]

/-- C2: score normalization maps a float in `[0, 1]` to the integer
`int(score * 100)` in `[0, 100]` (truncation toward zero), leaves every
non-float and every out-of-range float unchanged, and is idempotent. -/
theorem c2_score_normalization :
    (∀ q : ℚ, 0 ≤ q → q ≤ 1 →
      normalize_score_value (.jfloat q) = .jint (ratTrunc (q * 100)) ∧
      0 ≤ ratTrunc (q * 100) ∧ ratTrunc (q * 100) ≤ 100) ∧
    (∀ v : JValue, (∀ q : ℚ, v ≠ .jfloat q) → normalize_score_value v = v) ∧
    (∀ q : ℚ, ¬(0 ≤ q ∧ q ≤ 1) → normalize_score_value (.jfloat q) = .jfloat q) ∧
    (∀ v : JValue, normalize_score_value (normalize_score_value v) = normalize_score_value v) := by
  refine ⟨?_, ?_, ?_, ?_⟩
  · intro q h0 h1
    have hq : (0 : ℚ) ≤ q * 100 := by positivity
    have h100 : q * 100 ≤ 100 := by nlinarith
    refine ⟨by simp [normalize_score_value, h0, h1], ?_, ?_⟩
    · simp only [ratTrunc, if_pos hq]
      exact Int.le_floor.mpr (by exact_mod_cast hq)
    · simp only [ratTrunc, if_pos hq]
      calc ⌊q * 100⌋ ≤ ⌊(100 : ℚ)⌋ := Int.floor_le_floor h100
        _ = 100 := by norm_num
  · intro v hv
    cases v <;> first | rfl | exact absurd rfl (hv _)
  · intro q h
    simp [normalize_score_value, h]
  · intro v
    cases v with
    | jfloat q => by_cases h : 0 ≤ q ∧ q ≤ 1 <;> simp [normalize_score_value, h]
    | jnull => rfl
    | jbool b => rfl
    | jint n => rfl
    | jstr s => rfl
    | jarr items => rfl
    | jobj fields => rfl

/-- Witness for C2 at the concrete score `0.12`. -/
theorem c2_score_normalization_witness :
    normalize_score_value (.jfloat (12 / 100 : ℚ)) = .jint 12 := by
  have h := (c2_score_normalization.1 (12 / 100 : ℚ) (by norm_num) (by norm_num)).1
  have h2 : ratTrunc ((12 / 100 : ℚ) * 100) = 12 := by norm_num [ratTrunc]
  rw [h2] at h
  exact h

/-- C9: when the classifier actually queries the model, its result is the
stripped raw response if that is exactly one of the six labels and "Other"
otherwise; a raised error yields "Uncategorized", and so does a missing
API key (without any model call). -/
theorem c9_classifier_labels (env : Env) (claim : String) :
    (env.api_key = true → pyStrip claim ≠ "" →
      (∀ raw, env.classifierResponse = .ok raw →
        (get_claim_category env claim).1 =
          (if pyStrip raw ∈ validCategories then pyStrip raw else "Other")) ∧
      (∀ e, env.classifierResponse = .error e →
        (get_claim_category env claim).1 = "Uncategorized")) ∧
    (env.api_key = false → get_claim_category env claim = ("Uncategorized", false)) := by
  constructor
  · intro hk hc
    constructor
    · intro raw hraw
      simp [get_claim_category, hk, hc, hraw]
    · intro e he
      simp [get_claim_category, hk, hc, he]
  · intro hk
    simp [get_claim_category, hk]

/-- Witness for C9: a key is configured, the claim is non-blank and the
model answers " Health " (with stray whitespace); the category is the
stripped label "Health". -/
theorem c9_classifier_labels_witness :
    (get_claim_category ⟨true, .ok "x", .ok " Health ", fun _ => .ok .jnull, "ts"⟩ "vaccines").1 =
      "Health" := by
  have h := ((c9_classifier_labels ⟨true, .ok "x", .ok " Health ", fun _ => .ok .jnull, "ts"⟩
    "vaccines").1 rfl (by decide)).1 " Health " rfl
  rw [h]
  decide

/-- C3: starting from an absent backing file or one whose contents do not
parse (this covers the empty file), every serialized sequence of appends
leaves the file holding exactly the JSON array of the appended entries, in
append order, after every step; and a single append on an absent or
unparsable file starts a fresh one-entry array instead of failing. -/
theorem c3_trend_log_append (items : List TrendItem) (init : TrendFileState)
    (hinit : init = .absent ∨ init = .invalid) :
    (∀ n : ℕ, 1 ≤ n → n ≤ items.length →
      appendAll (items.take n) init = .ok (.stored (.jarr ((items.take n).map trendItemJ))) ∧
      ((items.take n).map trendItemJ).length = n) ∧
    (∀ it : TrendItem, log_trend_data it.ts it.verdict it.category it.source init =
      .ok (.stored (.jarr [trendItemJ it]))) := by
  constructor
  · intro n h1 hn
    cases items with
    | nil => simp at hn; omega
    | cons it rest =>
      cases n with
      | zero => omega
      | succ m =>
        have hm : m ≤ rest.length := by simpa using hn
        constructor
        · have hstep : log_trend_data it.ts it.verdict it.category it.source init =
              .ok (.stored (.jarr [trendItemJ it])) := by
            rcases hinit with h | h <;> subst h <;> simp [log_trend_data, trendItemJ]
          simp only [List.take_succ_cons, appendAll, hstep, List.map_cons]
          rw [appendAll_stored]
          simp
        · simp [List.length_take]
          omega
  · intro it
    rcases hinit with h | h <;> subst h <;> simp [log_trend_data, trendItemJ]

/-- Witness for C3: two appends starting from an absent file yield the
two-entry array, in order. -/
theorem c3_trend_log_append_witness :
    appendAll ([⟨"t1", .jstr "False", "Health", "text"⟩,
                ⟨"t2", .jstr "True", "Other", "url"⟩].take 2) .absent =
      .ok (.stored (.jarr (([⟨"t1", .jstr "False", "Health", "text"⟩,
                             ⟨"t2", .jstr "True", "Other", "url"⟩].take 2).map trendItemJ))) ∧
    (([(⟨"t1", .jstr "False", "Health", "text"⟩ : TrendItem),
       ⟨"t2", .jstr "True", "Other", "url"⟩].take 2).map trendItemJ).length = 2 :=
  (c3_trend_log_append
    [⟨"t1", .jstr "False", "Health", "text"⟩, ⟨"t2", .jstr "True", "Other", "url"⟩]
    .absent (Or.inl rfl)).1 2 (by norm_num) (by norm_num)

/-- C4: the orchestrator never lets an exception escape: for every input
its result is either an error dict (every raised exception — external
call, JSON decode, the type errors of the normalization and verdict
lookups, the trend-log append — is caught and converted) or the
score-normalized parsed response. -/
theorem c4_no_uncaught_exception (env : Env) (idx : Option CorpusIndex) (st : TrendFileState)
    (claim source_type : String) :
    (∃ msg, (get_fact_check_from_gemini env idx st claim source_type).result = errDict msg) ∨
    (∃ text r0 r1, env.modelResponse = .ok text ∧ env.jsonLoads text = .ok r0 ∧
      normalizeScoreStep r0 = .ok r1 ∧
      (get_fact_check_from_gemini env idx st claim source_type).result = r1) := by
  by_cases hk : env.api_key = false
  · refine Or.inl ⟨"API Key is not configured on the server.", ?_⟩
    simp [get_fact_check_from_gemini, hk]
  · cases hmr : env.modelResponse with
    | error e =>
      refine Or.inl ⟨"An API or other error occurred: " ++ e, ?_⟩
      simp [get_fact_check_from_gemini, hk, hmr]
    | ok text =>
      cases hjl : env.jsonLoads text with
      | error e =>
        refine Or.inl ⟨"Failed to parse JSON response from Gemini API: " ++ e ++
          ". Response: " ++ strTake text 500, ?_⟩
        simp [get_fact_check_from_gemini, hk, hmr, hjl]
      | ok r0 =>
        cases hns : normalizeScoreStep r0 with
        | error e =>
          refine Or.inl ⟨"An API or other error occurred: " ++ e, ?_⟩
          simp [get_fact_check_from_gemini, hk, hmr, hjl, hns]
        | ok r1 =>
          cases hgv : getVerdict r1 with
          | error e =>
            refine Or.inl ⟨"An API or other error occurred: " ++ e, ?_⟩
            simp [get_fact_check_from_gemini, hk, hmr, hjl, hns, hgv]
          | ok ov =>
            cases ov with
            | none =>
              refine Or.inr ⟨text, r0, r1, ?_, ?_, ?_, ?_⟩
              · rfl
              · exact hjl
              · exact hns
              · simp [get_fact_check_from_gemini, hk, hmr, hjl, hns, hgv]
            | some v =>
              by_cases htr : pyTruthy v
              · cases hlog : log_trend_data env.timestamp v
                    (get_claim_category env claim).1 source_type st with
                | error e =>
                  refine Or.inl ⟨"An API or other error occurred: " ++ e, ?_⟩
                  simp [get_fact_check_from_gemini, hk, hmr, hjl, hns, hgv, htr, hlog]
                | ok st2 =>
                  refine Or.inr ⟨text, r0, r1, ?_, ?_, ?_, ?_⟩
                  · rfl
                  · exact hjl
                  · exact hns
                  · simp [get_fact_check_from_gemini, hk, hmr, hjl, hns, hgv, htr, hlog]
              · refine Or.inr ⟨text, r0, r1, ?_, ?_, ?_, ?_⟩
                · rfl
                · exact hjl
                · exact hns
                · simp [get_fact_check_from_gemini, hk, hmr, hjl, hns, hgv, htr]

/-- C6: when the external model call raises, the fact-check returns the
generic API-error dict carrying the exception message, the model call
happened, the classifier was never called, and the trend log is unchanged
(no entry appended). -/
theorem c6_model_error_result (env : Env) (idx : Option CorpusIndex) (st : TrendFileState)
    (claim source_type e : String) (hk : env.api_key = true)
    (he : env.modelResponse = .error e) :
    get_fact_check_from_gemini env idx st claim source_type =
      ⟨errDict ("An API or other error occurred: " ++ e), st, true, false⟩ := by
  simp [get_fact_check_from_gemini, hk, he]

/-- Witness for C6 at a concrete transport failure. -/
theorem c6_model_error_result_witness :
    get_fact_check_from_gemini ⟨true, .error "connection reset", .ok "x", fun _ => .ok .jnull, "ts"⟩
      none (.stored (.jarr [])) "the moon is cheese" "text" =
      ⟨errDict ("An API or other error occurred: " ++ "connection reset"),
        .stored (.jarr []), true, false⟩ :=
  c6_model_error_result _ none (.stored (.jarr [])) "the moon is cheese" "text"
    "connection reset" rfl rfl

/-- C7: when the raw response does not parse as JSON, the result is an
error dict carrying the parser diagnostic and the raw response truncated
to at most 500 characters, and the trend log is unchanged. -/
theorem c7_parse_error_excerpt (env : Env) (idx : Option CorpusIndex) (st : TrendFileState)
    (claim source_type text e : String) (hk : env.api_key = true)
    (ht : env.modelResponse = .ok text) (hp : env.jsonLoads text = .error e) :
    get_fact_check_from_gemini env idx st claim source_type =
      ⟨errDict ("Failed to parse JSON response from Gemini API: " ++ e ++ ". Response: " ++
        strTake text 500), st, true, false⟩ ∧
    (strTake text 500).data.length ≤ 500 := by
  constructor
  · simp [get_fact_check_from_gemini, hk, ht, hp]
  · show (text.data.take 500).length ≤ 500
    simp [List.length_take]

/-- Witness for C7 at a concrete non-JSON response. -/
theorem c7_parse_error_excerpt_witness :
    get_fact_check_from_gemini
      ⟨true, .ok "I am not JSON", .ok "x", fun _ => .error "Expecting value", "ts"⟩
      none .absent "claim" "text" =
      ⟨errDict ("Failed to parse JSON response from Gemini API: " ++ "Expecting value" ++
        ". Response: " ++ strTake "I am not JSON" 500), .absent, true, false⟩ ∧
    (strTake "I am not JSON" 500).data.length ≤ 500 :=
  c7_parse_error_excerpt _ none .absent "claim" "text" "I am not JSON" "Expecting value"
    rfl rfl rfl

/-- C8: with no API key configured, every fact-check returns the explicit
"not configured" error; neither the model nor the classifier is called
(no network I/O) and the trend log is unchanged. -/
theorem c8_missing_key_no_call (env : Env) (idx : Option CorpusIndex) (st : TrendFileState)
    (claim source_type : String) (hk : env.api_key = false) :
    get_fact_check_from_gemini env idx st claim source_type =
      ⟨errDict "API Key is not configured on the server.", st, false, false⟩ := by
  simp [get_fact_check_from_gemini, hk]

/-- Witness for C8. -/
theorem c8_missing_key_no_call_witness :
    get_fact_check_from_gemini ⟨false, .ok "resp", .ok "Health", fun _ => .ok .jnull, "ts"⟩
      none .absent "claim" "text" =
      ⟨errDict "API Key is not configured on the server.", .absent, false, false⟩ :=
  c8_missing_key_no_call _ none .absent "claim" "text" rfl

/-- C5 counterexample: a configured key, a model response that parses to
the empty JSON object (a successful, non-error fact-check), and an empty
trend-log array.  No verdict key is present, so nothing is appended: the
claim "after every successful fact-check one TrendEntry is appended" fails
at this input. -/
theorem c5_success_append_counterexample : ¬ claimC5 := by
  intro h
  have hres : get_fact_check_from_gemini
      ⟨true, .ok "resp", .ok "Other", fun _ => .ok (.jobj []), "ts"⟩
      none (.stored (.jarr [])) "c" "text" =
      ⟨.jobj [], .stored (.jarr []), true, false⟩ := rfl
  have h2 := h ⟨true, .ok "resp", .ok "Other", fun _ => .ok (.jobj []), "ts"⟩
    none [] "c" "text" ?_
  · obtain ⟨e, he⟩ := h2
    rw [hres] at he
    simp at he
  · intro msg hmsg
    rw [hres] at hmsg
    simp [errDict] at hmsg

/-- C5 (amended): after every fact-check that succeeds AND whose parsed
response carries a truthy verdict, exactly one TrendEntry recording that
verdict, the classifier category and the caller-supplied source type is
appended to the trend-log array; a successful fact-check without such a
verdict appends nothing (refuting the unconditional claim). -/
theorem c5_trend_append_amended (env : Env) (idx : Option CorpusIndex) (l : List JValue)
    (claim source_type text : String) (r0 r1 v : JValue)
    (hk : env.api_key = true) (ht : env.modelResponse = .ok text)
    (hj : env.jsonLoads text = .ok r0) (hn : normalizeScoreStep r0 = .ok r1)
    (hv : getVerdict r1 = .ok (some v)) (htr : pyTruthy v = true) :
    get_fact_check_from_gemini env idx (.stored (.jarr l)) claim source_type =
      ⟨r1, .stored (.jarr (l ++ [trendEntryJ env.timestamp v (get_claim_category env claim).1
        source_type])), true, (get_claim_category env claim).2⟩ := by
  simp [get_fact_check_from_gemini, hk, ht, hj, hn, hv, htr, log_trend_data]

/-- Witness for the amended C5: a parsed response with verdict "False"
appends exactly one matching entry to the empty log. -/
theorem c5_trend_append_amended_witness :
    get_fact_check_from_gemini
      ⟨true, .ok "resp", .ok "Political", fun _ =>
        .ok (.jobj [("claim_analysis", .jobj [("verdict", .jstr "False")])]), "ts"⟩
      none (.stored (.jarr [])) "c" "text" =
      ⟨.jobj [("claim_analysis", .jobj [("verdict", .jstr "False")])],
        .stored (.jarr ([] ++ [trendEntryJ "ts" (.jstr "False")
          (get_claim_category ⟨true, .ok "resp", .ok "Political", fun _ =>
            .ok (.jobj [("claim_analysis", .jobj [("verdict", .jstr "False")])]), "ts"⟩ "c").1
          "text"])), true,
        (get_claim_category ⟨true, .ok "resp", .ok "Political", fun _ =>
          .ok (.jobj [("claim_analysis", .jobj [("verdict", .jstr "False")])]), "ts"⟩ "c").2⟩ :=
  c5_trend_append_amended
    ⟨true, .ok "resp", .ok "Political", fun _ =>
      .ok (.jobj [("claim_analysis", .jobj [("verdict", .jstr "False")])]), "ts"⟩
    none [] "c" "text" "resp"
    (.jobj [("claim_analysis", .jobj [("verdict", .jstr "False")])])
    (.jobj [("claim_analysis", .jobj [("verdict", .jstr "False")])])
    (.jstr "False") rfl rfl rfl rfl rfl rfl

/-- Helper: the lexicographic index order is transitive. -/
theorem lexLT_trans (val : ℕ → ℝ) {i j k : ℕ} (h1 : lexLT val i j) (h2 : lexLT val j k) :
    lexLT val i k := by
  rcases h1 with h1 | ⟨e1, l1⟩ <;> rcases h2 with h2 | ⟨e2, l2⟩
  · exact Or.inl (h1.trans h2)
  · exact Or.inl (e2 ▸ h1)
  · exact Or.inl (e1 ▸ h2)
  · exact Or.inr ⟨e1.trans e2, l1.trans l2⟩

/-- Helper: stable insertion only rearranges. -/
theorem insertAsc_perm (val : ℕ → ℝ) (i : ℕ) (l : List ℕ) :
    (insertAsc val i l).Perm (i :: l) := by
  induction l with
  | nil => simp [insertAsc]
  | cons j t ih =>
    by_cases h : val i < val j
    · simp [insertAsc, h]
    · simp only [insertAsc, if_neg h]
      exact (ih.cons j).trans (List.Perm.swap i j t)

/-- Helper: inserting a fresh largest index into a lexicographically sorted
index list keeps it sorted (stability: equal values keep index order). -/
theorem insertAsc_pairwise (val : ℕ → ℝ) (i : ℕ) (l : List ℕ)
    (hl : l.Pairwise (lexLT val)) (hidx : ∀ j ∈ l, j < i) :
    (insertAsc val i l).Pairwise (lexLT val) := by
  induction l with
  | nil => simp [insertAsc]
  | cons j t ih =>
    rcases List.pairwise_cons.mp hl with ⟨hj, ht⟩
    by_cases h : val i < val j
    · simp only [insertAsc, if_pos h]
      refine List.pairwise_cons.mpr ⟨?_, hl⟩
      intro x hx
      rcases List.mem_cons.mp hx with rfl | hx
      · exact Or.inl h
      · exact lexLT_trans val (Or.inl h) (hj x hx)
    · simp only [insertAsc, if_neg h]
      refine List.pairwise_cons.mpr ⟨?_, ih ht (fun a ha => hidx a (List.mem_cons_of_mem j ha))⟩
      intro x hx
      rcases List.mem_cons.mp ((insertAsc_perm val i t).mem_iff.mp hx) with rfl | hx
      · rcases eq_or_lt_of_le (not_lt.mp h) with e | hlt
        · exact Or.inr ⟨e, hidx j (List.mem_cons_self j t)⟩
        · exact Or.inl hlt
      · exact hj x hx

/-- Helper: the insertion-sort fold is a permutation of its inputs. -/
theorem foldl_insertAsc_perm (val : ℕ → ℝ) (todo acc : List ℕ) :
    (todo.foldl (fun ac i => insertAsc val i ac) acc).Perm (acc ++ todo) := by
  induction todo generalizing acc with
  | nil => simp
  | cons t todo ih =>
    simp only [List.foldl_cons]
    refine (ih (insertAsc val t acc)).trans ?_
    refine (((insertAsc_perm val t acc).append_right todo).trans ?_)
    exact List.perm_middle.symm

/-- Helper: folding stable insertion over increasing indices yields a
lexicographically sorted index list. -/
theorem foldl_insertAsc_pairwise (val : ℕ → ℝ) (todo acc : List ℕ)
    (hacc : acc.Pairwise (lexLT val))
    (hsep : ∀ a ∈ acc, ∀ t ∈ todo, a < t)
    (htodo : todo.Pairwise (· < ·)) :
    (todo.foldl (fun ac i => insertAsc val i ac) acc).Pairwise (lexLT val) := by
  induction todo generalizing acc with
  | nil => simpa using hacc
  | cons t todo ih =>
    rcases List.pairwise_cons.mp htodo with ⟨htd, htodo2⟩
    simp only [List.foldl_cons]
    refine ih (insertAsc val t acc) ?_ ?_ htodo2
    · exact insertAsc_pairwise val t acc hacc (fun j hj => hsep j hj t (List.mem_cons_self t todo))
    · intro a ha u hu
      rcases List.mem_cons.mp ((insertAsc_perm val t acc).mem_iff.mp ha) with rfl | ha
      · exact htd u hu
      · exact hsep a ha u (List.mem_cons_of_mem t hu)

/-- The argsort is a permutation of `0 .. n-1`. -/
theorem argsortAsc_perm (s : List ℝ) : (argsortAsc s).Perm (List.range s.length) := by
  have h := foldl_insertAsc_perm (fun k => s.getD k 0) (List.range s.length) []
  rw [List.nil_append] at h
  exact h

/-- The argsort is sorted by ascending value, ties by ascending index. -/
theorem argsortAsc_pairwise (s : List ℝ) :
    (argsortAsc s).Pairwise (lexLT (fun k => s.getD k 0)) := by
  refine foldl_insertAsc_pairwise _ (List.range s.length) [] (by simp) (by simp) ?_
  exact List.pairwise_lt_range s.length

theorem argsortAsc_length (s : List ℝ) : (argsortAsc s).length = s.length := by
  simpa using (argsortAsc_perm s).length_eq

/-- The small-array instance satisfies numpy's argsort specification (its
lexicographic order weakens to ascending values). -/
theorem isAscArgsort_argsortAsc (s : List ℝ) : isAscArgsort s (argsortAsc s) := by
  refine ⟨argsortAsc_perm s, (argsortAsc_pairwise s).imp ?_⟩
  intro i j h
  rcases h with h | ⟨h, _⟩
  · exact le_of_lt h
  · exact le_of_eq h

/-- For a positive `top_k`, the slice-and-reverse of any full argsort
keeps `min top_k n` indices. -/
theorem top_indices_of_length (p : List ℕ) (n k : ℕ) (hk : 1 ≤ k) (hp : p.length = n) :
    (top_indices_of p n k).length = min k n := by
  have hk0 : ¬ k = 0 := by omega
  simp [top_indices_of, hk0, hp]
  omega

/-- At `top_k = 0` Python's `[-0:]` slice keeps the whole argsort. -/
theorem top_indices_of_length_zero (p : List ℕ) (n : ℕ) (hp : p.length = n) :
    (top_indices_of p n 0).length = n := by
  simp [top_indices_of, hp]

/-- Slicing and reversing a sorted index list flips its order; this holds
for every sorting relation, so no tie-order assumption is involved. -/
theorem top_indices_of_pairwise {R : ℕ → ℕ → Prop} (p : List ℕ) (n k : ℕ)
    (hp : p.Pairwise R) : (top_indices_of p n k).Pairwise (fun i j => R j i) := by
  by_cases hk0 : k = 0
  · simp only [top_indices_of, if_pos hk0]
    exact List.pairwise_reverse.mpr hp
  · simp only [top_indices_of, if_neg hk0]
    exact List.pairwise_reverse.mpr (hp.sublist (List.drop_sublist _ _))

theorem mem_top_indices_of (p : List ℕ) (n k i : ℕ) (h : i ∈ top_indices_of p n k) :
    i ∈ p := by
  by_cases hk0 : k = 0
  · simp only [top_indices_of, if_pos hk0, List.mem_reverse] at h
    exact h
  · simp only [top_indices_of, if_neg hk0, List.mem_reverse] at h
    exact (List.drop_sublist _ _).subset h

/-- Concrete evaluation: on two tied similarities the argsort keeps index
order.  (A two-element array is inside numpy's insertion-sort regime, so
this is exactly what the real program computes.) -/
theorem argsortAsc_two_tie (c : ℝ) : argsortAsc [c, c] = [0, 1] := by
  have h : ¬ (List.getD [c, c] 1 0 < List.getD [c, c] 0 0) := by simp
  show (List.range 2).foldl _ [] = [0, 1]
  have h2 : List.range 2 = [0, 1] := rfl
  rw [h2]
  simp only [List.foldl_cons, List.foldl_nil, insertAsc, if_neg h]

/-- Concrete evaluation: the slice-and-reverse therefore returns the tied
pair in DESCENDING index order. -/
theorem top_indices_two_tie (c : ℝ) : top_indices [c, c] 3 = [1, 0] := by
  simp only [top_indices, argsortAsc_two_tie]
  rfl

/-- Concrete evaluation: the selection the spec describes keeps the tied
pair in ascending (original corpus) order. -/
theorem spec_ranking_two_tie (c : ℝ) : spec_ranking [c, c] = [0, 1] := by
  have h : ¬ (List.getD [c, c] 0 0 < List.getD [c, c] 1 0) := by simp
  show (List.range 2).foldl _ [] = [0, 1]
  have h2 : List.range 2 = [0, 1] := rfl
  rw [h2]
  simp only [List.foldl_cons, List.foldl_nil, insertDesc, if_neg h]

/-- C1 counterexample: a two-row corpus whose rows embed identically (equal
cosine similarity to any query).  On a two-element array numpy's introsort
is the stable insertion sort that `argsortAsc` mirrors exactly, so the
program returns the rows in descending index order `[row 1, row 0]`, while
the claimed stable selection returns `[row 0, row 1]`: the claim (ties
broken by original corpus order) is false. -/
theorem c1_tie_order_counterexample : ¬ claimC1 := by
  intro h
  have h1 := h.1 ⟨[⟨"the earth is flat", "FAKE", "x"⟩, ⟨"the earth is flat", "REAL", "y"⟩],
    fun _ => [(1 : ℝ)]⟩ "Is the earth flat" 3 (by norm_num)
  have hsim : similarities ⟨[⟨"the earth is flat", "FAKE", "x"⟩,
      ⟨"the earth is flat", "REAL", "y"⟩], fun _ => [(1 : ℝ)]⟩ "Is the earth flat" =
      [cosine_similarity [(1 : ℝ)] [(1 : ℝ)], cosine_similarity [(1 : ℝ)] [(1 : ℝ)]] := by
    simp [similarities]
  rw [retrieve_relevant_facts, spec_select, hsim, top_indices_two_tie,
    spec_ranking_two_tie] at h1
  simp [defaultRow] at h1

/-- C1 (amended): numpy's default argsort is unstable, so its tie order on
equal similarities is implementation-defined.  For EVERY ascending index
permutation `p` the argsort may return, and every `topK ≥ 1`, the
selection built from `p` (lines 71-72) returns at most `topK` in-range
rows, ordered by non-increasing cosine similarity; no particular tie order
is asserted, and the claimed stable tie-breaking by original corpus order
does NOT hold (see the counterexample).  The concrete small-array model
`argsortAsc` is one admissible permutation and is what
`retrieve_relevant_facts` runs; an unloaded corpus yields the empty
sequence. -/
theorem c1_retrieve_topk_amended (ix : CorpusIndex) (q : String) (k : ℕ) (hk : 1 ≤ k)
    (p : List ℕ) (hp : isAscArgsort (similarities ix q) p) :
    (retrieve_of p ix q k).length ≤ k ∧
    retrieve_of p ix q k =
      (top_indices_of p (similarities ix q).length k).map (fun i => ix.rows.getD i defaultRow) ∧
    (top_indices_of p (similarities ix q).length k).Pairwise (fun i j =>
      (similarities ix q).getD j 0 ≤ (similarities ix q).getD i 0) ∧
    (∀ i ∈ top_indices_of p (similarities ix q).length k, i < ix.rows.length) ∧
    retrieve_relevant_facts (some ix) q k =
      retrieve_of (argsortAsc (similarities ix q)) ix q k ∧
    isAscArgsort (similarities ix q) (argsortAsc (similarities ix q)) ∧
    (∀ (q2 : String) (k2 : ℕ), retrieve_relevant_facts none q2 k2 = []) := by
  have hlen : p.length = (similarities ix q).length := by
    simpa using hp.1.length_eq
  refine ⟨?_, rfl, ?_, ?_, rfl, isAscArgsort_argsortAsc _, fun q2 k2 => rfl⟩
  · show ((top_indices_of p (similarities ix q).length k).map
      (fun i => ix.rows.getD i defaultRow)).length ≤ k
    rw [List.length_map, top_indices_of_length p _ k hk hlen]
    omega
  · exact top_indices_of_pairwise p _ k hp.2
  · intro i hi
    have h2 := mem_top_indices_of p _ k i hi
    have h3 : i < (similarities ix q).length :=
      List.mem_range.mp (hp.1.mem_iff.mp h2)
    have h4 : (similarities ix q).length = ix.rows.length := by simp [similarities]
    omega

/-- Witness for the amended C1 at a concrete two-row corpus, `topK = 3`,
and the admissible permutation the program itself computes. -/
theorem c1_retrieve_topk_amended_witness :
    (retrieve_of (argsortAsc (similarities ⟨[⟨"a", "F", "s1"⟩, ⟨"b", "T", "s2"⟩],
        fun _ => [(0 : ℝ)]⟩ "query"))
      ⟨[⟨"a", "F", "s1"⟩, ⟨"b", "T", "s2"⟩], fun _ => [(0 : ℝ)]⟩ "query" 3).length ≤ 3 ∧
    retrieve_of (argsortAsc (similarities ⟨[⟨"a", "F", "s1"⟩, ⟨"b", "T", "s2"⟩],
        fun _ => [(0 : ℝ)]⟩ "query"))
      ⟨[⟨"a", "F", "s1"⟩, ⟨"b", "T", "s2"⟩], fun _ => [(0 : ℝ)]⟩ "query" 3 =
      (top_indices_of (argsortAsc (similarities ⟨[⟨"a", "F", "s1"⟩, ⟨"b", "T", "s2"⟩],
          fun _ => [(0 : ℝ)]⟩ "query"))
        (similarities ⟨[⟨"a", "F", "s1"⟩, ⟨"b", "T", "s2"⟩],
          fun _ => [(0 : ℝ)]⟩ "query").length 3).map
        (fun i => (⟨[⟨"a", "F", "s1"⟩, ⟨"b", "T", "s2"⟩],
          fun _ => [(0 : ℝ)]⟩ : CorpusIndex).rows.getD i defaultRow) ∧
    (top_indices_of (argsortAsc (similarities ⟨[⟨"a", "F", "s1"⟩, ⟨"b", "T", "s2"⟩],
        fun _ => [(0 : ℝ)]⟩ "query"))
      (similarities ⟨[⟨"a", "F", "s1"⟩, ⟨"b", "T", "s2"⟩],
        fun _ => [(0 : ℝ)]⟩ "query").length 3).Pairwise (fun i j =>
      (similarities ⟨[⟨"a", "F", "s1"⟩, ⟨"b", "T", "s2"⟩],
        fun _ => [(0 : ℝ)]⟩ "query").getD j 0 ≤
        (similarities ⟨[⟨"a", "F", "s1"⟩, ⟨"b", "T", "s2"⟩],
          fun _ => [(0 : ℝ)]⟩ "query").getD i 0) ∧
    (∀ i ∈ top_indices_of (argsortAsc (similarities ⟨[⟨"a", "F", "s1"⟩, ⟨"b", "T", "s2"⟩],
        fun _ => [(0 : ℝ)]⟩ "query"))
      (similarities ⟨[⟨"a", "F", "s1"⟩, ⟨"b", "T", "s2"⟩],
        fun _ => [(0 : ℝ)]⟩ "query").length 3, i <
      (⟨[⟨"a", "F", "s1"⟩, ⟨"b", "T", "s2"⟩],
        fun _ => [(0 : ℝ)]⟩ : CorpusIndex).rows.length) ∧
    retrieve_relevant_facts (some ⟨[⟨"a", "F", "s1"⟩, ⟨"b", "T", "s2"⟩],
      fun _ => [(0 : ℝ)]⟩) "query" 3 =
      retrieve_of (argsortAsc (similarities ⟨[⟨"a", "F", "s1"⟩, ⟨"b", "T", "s2"⟩],
        fun _ => [(0 : ℝ)]⟩ "query"))
      ⟨[⟨"a", "F", "s1"⟩, ⟨"b", "T", "s2"⟩], fun _ => [(0 : ℝ)]⟩ "query" 3 ∧
    isAscArgsort (similarities ⟨[⟨"a", "F", "s1"⟩, ⟨"b", "T", "s2"⟩],
      fun _ => [(0 : ℝ)]⟩ "query")
      (argsortAsc (similarities ⟨[⟨"a", "F", "s1"⟩, ⟨"b", "T", "s2"⟩],
        fun _ => [(0 : ℝ)]⟩ "query")) ∧
    (∀ (q2 : String) (k2 : ℕ), retrieve_relevant_facts none q2 k2 = []) :=
  c1_retrieve_topk_amended ⟨[⟨"a", "F", "s1"⟩, ⟨"b", "T", "s2"⟩], fun _ => [(0 : ℝ)]⟩
    "query" 3 (by norm_num)
    (argsortAsc (similarities ⟨[⟨"a", "F", "s1"⟩, ⟨"b", "T", "s2"⟩],
      fun _ => [(0 : ℝ)]⟩ "query"))
    (isAscArgsort_argsortAsc _)

/-- Helper: a dot product with an all-zero left vector is zero. -/
theorem dotp_zero_left : ∀ (u v : List ℝ), (∀ x ∈ u, x = 0) → dotp u v = 0
  | [], _, _ => by simp [dotp]
  | a :: t, [], _ => by simp [dotp]
  | a :: t, b :: tv, h => by
    simp only [dotp, List.zipWith_cons_cons, List.sum_cons]
    rw [h a (List.mem_cons_self a t), zero_mul, zero_add]
    exact dotp_zero_left t tv (fun x hx => h x (List.mem_cons_of_mem a hx))

/-- Concrete evaluation: the argsort of a one-element similarity array
(numpy computes exactly this on a one-element input). -/
theorem argsortAsc_single (c : ℝ) : argsortAsc [c] = [0] := rfl

/-- Concrete evaluation: at `top_k = 0` the slice keeps the whole argsort. -/
theorem top_indices_single_zero (c : ℝ) : top_indices [c] 0 = [0] := rfl

/-- C10 counterexample: at `topK = 0` Python's `[-0:]` slice selects the
whole argsort, so a one-row loaded corpus returns 1 row, not
`min 0 1 = 0` as the unconditioned claim demands. -/
theorem c10_count_counterexample : ¬ claimC10 := by
  intro h
  have h1 := h ⟨[⟨"x", "False", "w"⟩], fun _ => [(1 : ℝ)]⟩ "q" 0
  have hsim : similarities ⟨[⟨"x", "False", "w"⟩], fun _ => [(1 : ℝ)]⟩ "q" =
      [cosine_similarity [(1 : ℝ)] [(1 : ℝ)]] := by
    simp [similarities]
  rw [retrieve_relevant_facts, hsim, top_indices_single_zero] at h1
  simp at h1

/-- C10 (amended): with a loaded corpus of `n` rows, retrieval returns
exactly `min topK n` rows for every `topK ≥ 1`, but ALL `n` rows at
`topK = 0` (Python's `[-0:]` slice is the whole array); there is no
relevance threshold: a query embedding to the zero vector (no shared
vocabulary term) makes every cosine similarity zero, yet the same rows
are returned.  The row counts depend only on the argsort being a
permutation, so they hold regardless of numpy's tie order. -/
theorem c10_retrieve_count_amended (ix : CorpusIndex) (q : String) (k : ℕ) (hk : 1 ≤ k) :
    (retrieve_relevant_facts (some ix) q k).length = min k ix.rows.length ∧
    (retrieve_relevant_facts (some ix) q 0).length = ix.rows.length ∧
    ((∀ x ∈ ix.embed q, x = 0) → ∀ s ∈ similarities ix q, s = 0) := by
  have hlen : (argsortAsc (similarities ix q)).length = (similarities ix q).length :=
    argsortAsc_length _
  have hsl : (similarities ix q).length = ix.rows.length := by simp [similarities]
  refine ⟨?_, ?_, ?_⟩
  · simp only [retrieve_relevant_facts, top_indices, List.length_map]
    rw [top_indices_of_length _ _ _ hk hlen, hsl]
  · simp only [retrieve_relevant_facts, top_indices, List.length_map]
    rw [top_indices_of_length_zero _ _ hlen, hsl]
  · intro hz s hs
    simp only [similarities, List.mem_map] at hs
    obtain ⟨r, hr, rfl⟩ := hs
    show dotp (ix.embed q) (ix.embed r.text) / (l2norm (ix.embed q) * l2norm (ix.embed r.text)) = 0
    rw [dotp_zero_left _ _ hz, zero_div]

/-- Witness for the amended C10: one corpus row, zero query embedding,
`topK = 2`: exactly `min 2 1 = 1` row comes back even though every
similarity is 0, and `topK = 0` returns the whole corpus. -/
theorem c10_retrieve_count_amended_witness :
    (retrieve_relevant_facts (some ⟨[⟨"x", "False", "w"⟩], fun _ => [(0 : ℝ)]⟩)
      "nothing in common" 2).length =
      min 2 (⟨[⟨"x", "False", "w"⟩], fun _ => [(0 : ℝ)]⟩ : CorpusIndex).rows.length ∧
    (retrieve_relevant_facts (some ⟨[⟨"x", "False", "w"⟩], fun _ => [(0 : ℝ)]⟩)
      "nothing in common" 0).length =
      (⟨[⟨"x", "False", "w"⟩], fun _ => [(0 : ℝ)]⟩ : CorpusIndex).rows.length ∧
    ((∀ x ∈ (⟨[⟨"x", "False", "w"⟩], fun _ => [(0 : ℝ)]⟩ : CorpusIndex).embed
        "nothing in common", x = 0) →
      ∀ s ∈ similarities ⟨[⟨"x", "False", "w"⟩], fun _ => [(0 : ℝ)]⟩ "nothing in common",
        s = 0) :=
  c10_retrieve_count_amended ⟨[⟨"x", "False", "w"⟩], fun _ => [(0 : ℝ)]⟩ "nothing in common" 2
    (by norm_num)

end FactChecker
